import Mathlib

set_option maxHeartbeats 800000

/- Shallow embedding of the trivago gollum sources relevant to the verified
   claims: the Scribe producer's adaptive send window (transformMessages),
   the Spooling producer's writeToFile and routeToOrigin, plugin
   configuration overriding, the plugin registry, the Sequence formatter and
   the Scribe batch configuration. Machine integers are modelled as Nat
   (every quantity involved is non-negative and far from overflow);
   durations are abstract Nat time units. -/

/-- Scribe thrift result codes; constructor other stands for any code value
besides OK and TRY_LATER that can arrive on the wire. -/
inductive ResultCode where
  | ok
  | tryLater
  | other (code : Int)
  deriving DecidableEq

/-- One response of a scribe.Log call: the result code together with the
information whether the returned err was non-nil. -/
structure LogResponse where
  code : ResultCode
  errNonNil : Bool
  deriving DecidableEq

/-- Constant scribeMaxRetries from the Scribe producer. -/
def scribeMaxRetries : Nat := 30

/-- Constant scribeMaxSleepTimeMs from the Scribe producer. -/
def scribeMaxSleepTimeMs : Nat := 3000

/-- How one call of Scribe.transformMessages ended. Outcome pending means the
supplied response trace ended while the loop would have issued another
scribe.Log call; panicked models the nil-pointer dereference of err.Error()
in the logging statement when err is nil. -/
inductive TMOutcome where
  | success
  | errorDrop
  | busyDrop
  | panicked
  | pending
  deriving DecidableEq

/-- Observable result of the send loop of Scribe.transformMessages:
final idxStart and windowSize, the successive values written to the
WindowSize gauge, the sleep durations performed, whether the transport was
closed, the start index of the dropped suffix (dropMessages on
messages[idxStart:]) if any, and how the loop ended. -/
structure TMResult where
  idxStart : Nat
  windowSize : Nat
  gaugeUpdates : List Nat
  sleepsMs : List Nat
  transportClosed : Bool
  dropFrom : Option Nat
  outcome : TMOutcome
  deriving DecidableEq

/-- Halving step on TRY_LATER: shared.MaxI(1, windowSize/2). -/
def halveFloor (w : Nat) : Nat := max 1 (w / 2)

/-- Window growth after a full drain: windowSize += (total-windowSize)/2,
guarded by windowSize < total. -/
def growWindow (w total : Nat) : Nat :=
  if w < total then w + (total - w) / 2 else w

/-- The retry loop of Scribe.transformMessages. total is len(logBuffer);
responses is the trace of scribe.Log results, consumed one per iteration;
gauges and sleeps accumulate (in reverse) the WindowSize gauge updates and
the sleep calls. Mirrors: for retryCount := 0; retryCount < scribeMaxRetries;
retryCount++ with idxEnd := MinI(len, idxStart+windowSize), the OK branch
(advance, reset retry counter via retryCount = -1 and continue, or grow the
window and return), the error branch (err != nil or code != TRY_LATER: log
err.Error(), close transport, drop messages[idxStart:]), and the TRY_LATER
branch (halve with floor 1, set gauge, sleep maxSleepTimeMs/maxRetries). -/
def scribeLogLoop (total : Nat) (responses : List LogResponse)
    (idxStart windowSize retryCount : Nat) (gauges sleeps : List Nat) : TMResult :=
  if scribeMaxRetries ≤ retryCount then
    { idxStart := idxStart, windowSize := windowSize, gaugeUpdates := gauges.reverse,
      sleepsMs := sleeps.reverse, transportClosed := false,
      dropFrom := some idxStart, outcome := TMOutcome.busyDrop }
  else
    match responses with
    | [] =>
      { idxStart := idxStart, windowSize := windowSize, gaugeUpdates := gauges.reverse,
        sleepsMs := sleeps.reverse, transportClosed := false,
        dropFrom := none, outcome := TMOutcome.pending }
    | r :: rest =>
      let idxEnd := min total (idxStart + windowSize)
      if r.code = ResultCode.ok then
        if idxEnd < total then
          scribeLogLoop total rest idxEnd windowSize 0 gauges sleeps
        else
          { idxStart := idxEnd, windowSize := growWindow windowSize total,
            gaugeUpdates := gauges.reverse, sleepsMs := sleeps.reverse,
            transportClosed := false, dropFrom := none, outcome := TMOutcome.success }
      else if r.errNonNil then
        { idxStart := idxStart, windowSize := windowSize, gaugeUpdates := gauges.reverse,
          sleepsMs := sleeps.reverse, transportClosed := true,
          dropFrom := some idxStart, outcome := TMOutcome.errorDrop }
      else if r.code = ResultCode.tryLater then
        scribeLogLoop total rest idxStart (halveFloor windowSize) (retryCount + 1)
          (halveFloor windowSize :: gauges)
          (scribeMaxSleepTimeMs / scribeMaxRetries :: sleeps)
      else
        { idxStart := idxStart, windowSize := windowSize, gaugeUpdates := gauges.reverse,
          sleepsMs := sleeps.reverse, transportClosed := false,
          dropFrom := none, outcome := TMOutcome.panicked }

/-- Entry into the send loop of Scribe.transformMessages: idxStart = 0,
retryCount = 0, no gauge updates or sleeps performed yet. -/
def transformMessages (total : Nat) (responses : List LogResponse)
    (windowSize : Nat) : TMResult :=
  scribeLogLoop total responses 0 windowSize 0 [] []

/-- Successive WindowSize gauge values written during a run of consecutive
TRY_LATER responses starting from window w. -/
def tlGaugeList : Nat → Nat → List Nat
  | _, 0 => []
  | w, k + 1 => halveFloor w :: tlGaugeList (halveFloor w) k

/-- A TRY_LATER response with nil error. -/
def tlResp : LogResponse := { code := ResultCode.tryLater, errNonNil := false }

/-- User-supplied Scribe plugin config values relevant to batching; none
means the key is absent and the GetInt default applies. -/
structure ScribeConfig where
  batchMaxCount : Option Nat
  batchFlushCount : Option Nat
  batchTimeoutSec : Option Nat
  deriving DecidableEq

/-- Batch-related producer state established by Scribe.Configure. -/
structure ScribeSettings where
  batchMaxCount : Nat
  windowSize : Nat
  batchFlushCount : Nat
  batchTimeoutSec : Nat
  deriving DecidableEq

/-- Scribe.Configure, batching part: batchMaxCount := GetInt(8192 default),
windowSize := batchMaxCount, batchFlushCount := GetInt(batchMaxCount/2
default) then clamped with shared.MinI to batchMaxCount,
batchTimeoutSec := GetInt(5 default). -/
def scribeConfigure (c : ScribeConfig) : ScribeSettings :=
  let maxC := c.batchMaxCount.getD 8192
  { batchMaxCount := maxC,
    windowSize := maxC,
    batchFlushCount := min (c.batchFlushCount.getD (maxC / 2)) maxC,
    batchTimeoutSec := c.batchTimeoutSec.getD 5 }

/-- Modelled from the spec: core.MessageBatch.ReachedSizeThreshold (the
MessageBatch implementation is not under src/). True iff active count >= n. -/
def reachedSizeThreshold (activeCount n : Nat) : Bool :=
  decide (n ≤ activeCount)

/-- Modelled from the spec: core.MessageBatch.ReachedTimeThreshold (the
MessageBatch implementation is not under src/). True iff now - lastAppend >= d
and the active count is positive. -/
def reachedTimeThreshold (now lastAppend d activeCount : Nat) : Bool :=
  decide (d ≤ now - lastAppend ∧ 0 < activeCount)

/-- The flush decision of Scribe.sendBatchOnTimeOut: flush when the time
threshold or the size threshold is reached. -/
def sendBatchOnTimeOutFlushes (s : ScribeSettings)
    (now lastAppend activeCount : Nat) : Bool :=
  reachedTimeThreshold now lastAppend s.batchTimeoutSec activeCount ||
    reachedSizeThreshold activeCount s.batchFlushCount

/-- Mode passed to os.MkdirAll in Spooling.writeToFile: 0700 octal. -/
def mkdirMode : Nat := 0o700

/-- The part of a gollum message Spooling.writeToFile looks at. -/
structure SpoolMsg where
  prevStreamID : Nat
  deriving DecidableEq

/-- Modelled from the spec: per-stream spoolFile state (spoolfile.go is not
under src/): stream name, base directory, and the read/write counters behind
countRead/countWrite. -/
structure SpoolFileSt where
  streamName : String
  basePath : String
  reads : Nat
  writes : Nat
  deriving DecidableEq

/-- Environment oracles for Spooling.writeToFile: the StreamRegistry name
lookup, whether os.MkdirAll succeeds on a path, and whether
spoolFile.openOrRotate succeeds for a stream (both are I/O whose outcome the
claims quantify over). -/
structure SpoolEnv where
  streamName : Nat → String
  mkdirOk : String → Bool
  openOrRotateOk : Nat → Bool

/-- Spooling producer state: configured Path and the outfile map. -/
structure SpoolingState where
  path : String
  outfile : List (Nat × SpoolFileSt)
  deriving DecidableEq

/-- Observable actions of one Spooling.writeToFile call: the MkdirAll
attempt (with mode), the error log, prod.Drop(msg), msg.Route(target), and
the batch append to a stream's spool. -/
inductive SpoolEvent where
  | mkdirAttempt (path : String) (mode : Nat)
  | logError (path : String)
  | drop
  | route (streamID : Nat)
  | append (streamID : Nat)
  deriving DecidableEq

/-- Lookup in the outfile map (Go: spool, exists := prod.outfile[streamID]). -/
def lookupSpool (l : List (Nat × SpoolFileSt)) (id : Nat) : Option SpoolFileSt :=
  match l.find? (fun q => q.1 == id) with
  | some q => some q.2
  | none => none

/-- In-place update of one spool entry (Go mutates through the pointer). -/
def updateSpool (l : List (Nat × SpoolFileSt)) (id : Nat) (s : SpoolFileSt) :
    List (Nat × SpoolFileSt) :=
  l.map (fun q => if q.1 == id then (id, s) else q)

/-- Modelled from the spec: the per-stream spool directory is
base/streamName. -/
def spoolBasePath (path name : String) : String := path ++ "/" ++ name

/-- Modelled from the spec: newSpoolFile (spoolfile.go is not under src/)
creates fresh state for a stream with the directory base/streamName. -/
def newSpoolFile (env : SpoolEnv) (path : String) (streamID : Nat) : SpoolFileSt :=
  { streamName := env.streamName streamID,
    basePath := spoolBasePath path (env.streamName streamID),
    reads := 0, writes := 0 }

/-- Modelled from the spec: spoolFile.countRead. -/
def countRead (s : SpoolFileSt) : SpoolFileSt := { s with reads := s.reads + 1 }

/-- Modelled from the spec: spoolFile.countWrite. -/
def countWrite (s : SpoolFileSt) : SpoolFileSt := { s with writes := s.writes + 1 }

/-- Spooling.routeToOrigin: msg.Route(msg.PrevStreamID), then countRead on
the spool registered for that stream if one exists. -/
def routeToOrigin (st : SpoolingState) (msg : SpoolMsg) :
    SpoolingState × List SpoolEvent :=
  match lookupSpool st.outfile msg.prevStreamID with
  | some sp =>
      ({ st with outfile := updateSpool st.outfile msg.prevStreamID (countRead sp) },
       [SpoolEvent.route msg.prevStreamID])
  | none => (st, [SpoolEvent.route msg.prevStreamID])

/-- Tail of Spooling.writeToFile after the outfile entry exists: if
openOrRotate fails, routeToOrigin(msg) and return; otherwise append to the
spool batch and countWrite. -/
def spoolAppend (env : SpoolEnv) (st : SpoolingState) (msg : SpoolMsg) :
    SpoolingState × List SpoolEvent :=
  if env.openOrRotateOk msg.prevStreamID then
    match lookupSpool st.outfile msg.prevStreamID with
    | some sp =>
        ({ st with outfile := updateSpool st.outfile msg.prevStreamID (countWrite sp) },
         [SpoolEvent.append msg.prevStreamID])
    | none => (st, [SpoolEvent.append msg.prevStreamID])
  else
    routeToOrigin st msg

/-- Spooling.writeToFile: resolve the spool by msg.PrevStreamID; on a miss,
create it, register it in outfile (before the mkdir check), and MkdirAll the
base path with mode 0700 - on failure log, Drop(msg) and return; then
openOrRotate and append via spoolAppend. -/
def writeToFile (env : SpoolEnv) (st : SpoolingState) (msg : SpoolMsg) :
    SpoolingState × List SpoolEvent :=
  match lookupSpool st.outfile msg.prevStreamID with
  | some _ => spoolAppend env st msg
  | none =>
      let spool := newSpoolFile env st.path msg.prevStreamID
      let st1 : SpoolingState := { st with outfile := (msg.prevStreamID, spool) :: st.outfile }
      if env.mkdirOk spool.basePath then
        let res := spoolAppend env st1 msg
        (res.1, SpoolEvent.mkdirAttempt spool.basePath mkdirMode :: res.2)
      else
        (st1, [SpoolEvent.mkdirAttempt spool.basePath mkdirMode,
               SpoolEvent.logError spool.basePath, SpoolEvent.drop])

/-- A plugin configuration: ordered key/value settings. -/
structure PluginConfig where
  settings : List (String × String)
  deriving DecidableEq

/-- PluginConfig.Override: forcibly replace a user value for a key. -/
def PluginConfig.override (c : PluginConfig) (key value : String) : PluginConfig :=
  { settings := (key, value) :: c.settings.filter (fun q => q.1 != key) }

/-- PluginConfig.GetString: the stored value for the key, or the default. -/
def PluginConfig.getString (c : PluginConfig) (key dflt : String) : String :=
  match c.settings.find? (fun q => q.1 == key) with
  | some q => q.2
  | none => dflt

/-- Spooling.Configure, first statement: the config that is delegated to
ProducerBase.Configure is the user config with the Formatter key overridden
to format.Serialize. -/
def spoolingConfigureConf (conf : PluginConfig) : PluginConfig :=
  conf.override ("Formatter") ("format.Serialize")

/-- Modelled from the spec: the effective formatter ProducerBase.Configure
(not under src/) binds for the Spooling producer is the Formatter setting of
the delegated config (with format.Forward as the registry default). -/
def spoolingFormatter (conf : PluginConfig) : String :=
  (spoolingConfigureConf conf).getString ("Formatter") ("format.Forward")

/-- Modelled from the spec: core.PluginRegistry (pluginregistry.go is not
under src/, only its test). Keyed by user-assigned ID string; Register
appends, an empty ID means do not register. -/
structure PluginRegistry (α : Type) where
  plugins : List (String × α)

/-- Modelled from the spec: PluginRegistry.Register appends the plugin under
the given ID; an empty ID means do not register. -/
def PluginRegistry.register {α : Type} (r : PluginRegistry α) (p : α)
    (id : String) : PluginRegistry α :=
  if id = "" then r else { plugins := r.plugins ++ [(id, p)] }

/-- Modelled from the spec: PluginRegistry.GetPlugin returns the plugin
registered under the ID (the most recent registration wins, mirroring the
map overwrite), or nil (none) if absent. -/
def PluginRegistry.getPlugin {α : Type} (r : PluginRegistry α) (id : String) :
    Option α :=
  match r.plugins.reverse.find? (fun q => q.1 == id) with
  | some q => some q.2
  | none => none

/-- Modelled from the spec: PluginRegistry.RegisterUnique rejects duplicate
IDs with an error (the Bool component: true means error) and otherwise
registers. -/
def PluginRegistry.registerUnique {α : Type} (r : PluginRegistry α) (p : α)
    (id : String) : PluginRegistry α × Bool :=
  match r.getPlugin id with
  | some _ => (r, true)
  | none => (r.register p id, false)

/-- Decimal representation used by the Sequence formatter model. -/
def decRepr (n : Nat) : String := Nat.repr n

/-- Model of int(math.Log10(float64(n))) in Sequence.PrepareMessage for
inputs where the float64 computation is unambiguous (far from exact powers
of ten, below 2 to the 53): the number of decimal digits minus one. -/
def goIntLog10 (n : Nat) : Nat := (decRepr n).length - 1

/-- Sequence.PrepareMessage prefix length: 2, plus int(math.Log10(Sequence))
when Sequence > 9. -/
def seqPrefixLen (seq : Nat) : Nat :=
  2 + (if 9 < seq then goIntLog10 seq else 0)

/-- Sequence.GetLength: base formatter length plus the prefix length. -/
def seqGetLength (seq baseLen : Nat) : Nat := baseLen + seqPrefixLen seq

/-- Sequence.String: Sprintf of sequence, colon, base string. -/
def seqString (seq : Nat) (base : String) : String :=
  decRepr seq ++ ":" ++ base

/-- Bytes written by Sequence.CopyTo: shared.Uitob writes the decimal digits
of the sequence into dest up to colonIdx (modelled from the spec, Uitob is
not under src/), a colon at colonIdx, then the base formatter's bytes. -/
def seqCopyTo (seq : Nat) (base : String) : String :=
  decRepr seq ++ ":" ++ base

/-- Return value of Sequence.CopyTo: prefixLength plus the base CopyTo
return value (the base formatter's length). -/
def seqCopyToReturn (seq baseLen : Nat) : Nat := seqPrefixLen seq + baseLen

/-- One occasion on which the Scribe producer can flush its batch: a ticker
callback (sendBatchOnTimeOut) carrying the clock, the last append time and
the active count, or the shutdown path (Scribe.close). -/
inductive ScribeEvent where
  | ticker (now lastAppend activeCount : Nat)
  | shutdown
  deriving DecidableEq

/-- Modelled from the spec: MessageBatch.Close(flushFn, timeout) swaps and
passes the resident messages to the flush function, waiting up to the
timeout; the residue that misses the timeout is dropped via the producer's
drop path. The budget argument is how many resident messages the in-flight
flush completes within the timeout; the first component is what flushFn
receives, the second the dropped residue. -/
def messageBatchClose (resident : List Nat) (budget : Nat) : List Nat × List Nat :=
  (resident.take budget, resident.drop budget)

/-- Scribe.close: after draining the message channel the producer
unconditionally hands the batch to batch.Close with transformMessages as
the flush function and the shutdown timeout - no size or time threshold is
consulted on this path. -/
def scribeCloseFlush (resident : List Nat) (budget : Nat) : List Nat × List Nat :=
  messageBatchClose resident budget

/-- The Scribe batch flush decision across events: the ticker path decides
per sendBatchOnTimeOut, the shutdown path always flushes because
Scribe.close calls batch.Close unconditionally. -/
def scribeFlushOn (s : ScribeSettings) : ScribeEvent → Bool
  | ScribeEvent.ticker now lastAppend activeCount =>
      sendBatchOnTimeOutFlushes s now lastAppend activeCount
  | ScribeEvent.shutdown => true

theorem max_one_div_le (a t : Nat) : max 1 (max 1 a / t) ≤ max 1 (a / t) := by
  rcases Nat.eq_zero_or_pos a with ha | ha
  · subst ha
    have h1 : 1 / t ≤ 1 := Nat.div_le_self 1 t
    simp only [Nat.max_eq_left (Nat.zero_le 1), Nat.zero_div]
    omega
  · rw [Nat.max_eq_right ha]

theorem halveFloor_iterate_le (k : Nat) : ∀ w : Nat, halveFloor^[k] w ≤ max 1 (w / 2 ^ k) := by
  induction k with
  | zero =>
    intro w
    simp only [Function.iterate_zero_apply, pow_zero, Nat.div_one]
    omega
  | succ k ih =>
    intro w
    rw [Function.iterate_succ_apply]
    refine le_trans (ih (halveFloor w)) ?_
    have hdd : w / 2 / 2 ^ k = w / 2 ^ (k + 1) := by
      rw [Nat.div_div_eq_div_mul, pow_succ, Nat.mul_comm]
    have h1 : max 1 (max 1 (w / 2) / 2 ^ k) ≤ max 1 (w / 2 / 2 ^ k) :=
      max_one_div_le (w / 2) (2 ^ k)
    rw [hdd] at h1
    simpa [halveFloor] using h1

theorem scribeLogLoop_tryLater_run (total k : Nat) :
    ∀ (idx w j : Nat) (g s : List Nat), j + k ≤ scribeMaxRetries →
    scribeLogLoop total (List.replicate k tlResp) idx w j g s =
      { idxStart := idx,
        windowSize := halveFloor^[k] w,
        gaugeUpdates := g.reverse ++ tlGaugeList w k,
        sleepsMs := s.reverse ++ List.replicate k (scribeMaxSleepTimeMs / scribeMaxRetries),
        transportClosed := false,
        dropFrom := if scribeMaxRetries ≤ j + k then some idx else none,
        outcome := if scribeMaxRetries ≤ j + k then TMOutcome.busyDrop else TMOutcome.pending } := by
  induction k with
  | zero =>
    intro idx w j g s h
    by_cases hj : scribeMaxRetries ≤ j
    · simp [scribeLogLoop, hj, tlGaugeList]
    · simp [scribeLogLoop, hj, tlGaugeList]
  | succ k ih =>
    intro idx w j g s h
    have hj : ¬ scribeMaxRetries ≤ j := by omega
    have hstep : scribeLogLoop total (List.replicate (k + 1) tlResp) idx w j g s =
        scribeLogLoop total (List.replicate k tlResp) idx (halveFloor w) (j + 1)
          (halveFloor w :: g) (scribeMaxSleepTimeMs / scribeMaxRetries :: s) := by
      rw [List.replicate_succ]
      simp [scribeLogLoop, hj, tlResp]
    rw [hstep, ih idx (halveFloor w) (j + 1) _ _ (by omega)]
    have hadd : j + 1 + k = j + (k + 1) := by omega
    simp only [Function.iterate_succ_apply, tlGaugeList, List.reverse_cons,
      List.append_assoc, List.singleton_append, List.replicate_succ, hadd]

/-- C1: in Scribe.transformMessages, every consecutive TRY_LATER result
halves windowSize with a floor of 1 and writes the new value to the
WindowSize gauge, the loop sleeps scribeMaxSleepTimeMs/scribeMaxRetries
between attempts and retries at most scribeMaxRetries (30) consecutive
times, after which the unsent suffix messages[idxStart:] is dropped; after
k consecutive TRY_LATERs the window is at most max(1, initial / 2^k). -/
theorem c1_try_later_halving (k w total : Nat) (hk : k ≤ scribeMaxRetries) :
    (transformMessages total (List.replicate k tlResp) w).windowSize = halveFloor^[k] w ∧
    (transformMessages total (List.replicate k tlResp) w).windowSize ≤ max 1 (w / 2 ^ k) ∧
    (transformMessages total (List.replicate k tlResp) w).gaugeUpdates = tlGaugeList w k ∧
    (transformMessages total (List.replicate k tlResp) w).sleepsMs =
      List.replicate k (scribeMaxSleepTimeMs / scribeMaxRetries) ∧
    (transformMessages total (List.replicate k tlResp) w).idxStart = 0 ∧
    (k = scribeMaxRetries →
      (transformMessages total (List.replicate k tlResp) w).outcome = TMOutcome.busyDrop ∧
      (transformMessages total (List.replicate k tlResp) w).dropFrom = some 0) ∧
    (k < scribeMaxRetries →
      (transformMessages total (List.replicate k tlResp) w).outcome = TMOutcome.pending ∧
      (transformMessages total (List.replicate k tlResp) w).dropFrom = none) := by
  have hrun := scribeLogLoop_tryLater_run total k 0 w 0 [] [] (by omega)
  have hres : transformMessages total (List.replicate k tlResp) w =
      { idxStart := 0, windowSize := halveFloor^[k] w,
        gaugeUpdates := tlGaugeList w k,
        sleepsMs := List.replicate k (scribeMaxSleepTimeMs / scribeMaxRetries),
        transportClosed := false,
        dropFrom := if scribeMaxRetries ≤ k then some 0 else none,
        outcome := if scribeMaxRetries ≤ k then TMOutcome.busyDrop else TMOutcome.pending } := by
    rw [transformMessages, hrun]
    simp
  rw [hres]
  refine ⟨rfl, halveFloor_iterate_le k w, rfl, rfl, rfl, ?_, ?_⟩
  · intro hke
    subst hke
    simp
  · intro hkl
    have h30 : ¬ scribeMaxRetries ≤ k := by omega
    simp [h30]

/-- Witness for C1 at k = 30, w = 100, total = 5: the window bottoms out at
1, the loop performs 30 sleeps of 100 ms, ends busy and drops from index 0. -/
theorem c1_try_later_halving_witness :
    (transformMessages 5 (List.replicate 30 tlResp) 100).windowSize = 1 ∧
    (transformMessages 5 (List.replicate 30 tlResp) 100).outcome = TMOutcome.busyDrop ∧
    (transformMessages 5 (List.replicate 30 tlResp) 100).dropFrom = some 0 ∧
    (transformMessages 5 (List.replicate 30 tlResp) 100).sleepsMs = List.replicate 30 100 := by
  have h := c1_try_later_halving 30 100 5 (by decide)
  refine ⟨?_, (h.2.2.2.2.2.1 rfl).1, (h.2.2.2.2.2.1 rfl).2, ?_⟩
  · rw [h.1]
    decide
  · rw [h.2.2.2.1]
    decide

/-- C3: in Scribe.transformMessages, an OK result advances idxStart by the
window size and, when data remains, continues with the retry counter reset
to 0; on a full drain with windowSize < total the window grows by
(total - windowSize) / 2 and never exceeds total; a full drain with
windowSize at or above total leaves the window unchanged. -/
theorem c3_ok_advance (total idx w rc : Nat) (e : Bool) (rest : List LogResponse)
    (g s : List Nat) (hrc : rc < scribeMaxRetries) :
    (idx + w < total →
      scribeLogLoop total ({ code := ResultCode.ok, errNonNil := e } :: rest) idx w rc g s =
        scribeLogLoop total rest (idx + w) w 0 g s) ∧
    (total ≤ idx + w →
      scribeLogLoop total ({ code := ResultCode.ok, errNonNil := e } :: rest) idx w rc g s =
        { idxStart := total, windowSize := growWindow w total,
          gaugeUpdates := g.reverse, sleepsMs := s.reverse,
          transportClosed := false, dropFrom := none, outcome := TMOutcome.success }) ∧
    (w < total → growWindow w total = w + (total - w) / 2) ∧
    (w < total → growWindow w total ≤ total) ∧
    (total ≤ w → growWindow w total = w) := by
  have hrc' : ¬ scribeMaxRetries ≤ rc := by omega
  refine ⟨?_, ?_, ?_, ?_, ?_⟩
  · intro hlt
    have hmin : min total (idx + w) = idx + w := by omega
    simp [scribeLogLoop, hrc', hmin, hlt]
  · intro hge
    have hmin : min total (idx + w) = total := by omega
    simp [scribeLogLoop, hrc', hmin]
  · intro hlt
    simp [growWindow, hlt]
  · intro hlt
    simp only [growWindow, if_pos hlt]
    omega
  · intro hge
    simp [growWindow, Nat.not_lt.mpr hge]

/-- Witness for C3: with total = 10 and window 4 an OK advances 0 to 4 and
resets the retry counter; a full drain at window 6 returns success with the
window grown to 6 + (10 - 6) / 2 = 8. -/
theorem c3_ok_advance_witness :
    (scribeLogLoop 10 [{ code := ResultCode.ok, errNonNil := false }] 0 4 7 [] [] =
      scribeLogLoop 10 [] 4 4 0 [] []) ∧
    (scribeLogLoop 10 [{ code := ResultCode.ok, errNonNil := false }] 6 6 0 [] [] =
      { idxStart := 10, windowSize := growWindow 6 10, gaugeUpdates := [],
        sleepsMs := [], transportClosed := false, dropFrom := none,
        outcome := TMOutcome.success }) ∧
    growWindow 6 10 = 6 + (10 - 6) / 2 := by
  refine ⟨(c3_ok_advance 10 0 4 7 false [] [] [] (by decide)).1 (by decide),
          (c3_ok_advance 10 6 6 0 false [] [] [] (by decide)).2.1 (by decide),
          (c3_ok_advance 10 6 6 0 false [] [] [] (by decide)).2.2.1 (by decide)⟩

/-- C7 (amended): in Scribe.transformMessages, when the scribe Log call
returns a result code other than OK together with a non-nil error, the
producer logs the error, closes the transport to force a reconnect, drops
the unsent suffix messages[idxStart:], and returns without further
retries. -/
theorem c7_error_branch (total idx w rc : Nat) (rest : List LogResponse)
    (g s : List Nat) (r : LogResponse) (hrc : rc < scribeMaxRetries)
    (hcode : r.code ≠ ResultCode.ok) (herr : r.errNonNil = true) :
    scribeLogLoop total (r :: rest) idx w rc g s =
      { idxStart := idx, windowSize := w, gaugeUpdates := g.reverse,
        sleepsMs := s.reverse, transportClosed := true,
        dropFrom := some idx, outcome := TMOutcome.errorDrop } := by
  have hrc' : ¬ scribeMaxRetries ≤ rc := by omega
  simp [scribeLogLoop, hrc', hcode, herr]

/-- Counterexample to C7 as stated: a Log call that returns a non-nil error
together with result code OK takes the success path of the code - nothing
is logged or dropped and the transport stays open. -/
theorem c7_error_branch_counterexample :
    (transformMessages 1 [{ code := ResultCode.ok, errNonNil := true }] 5).outcome =
        TMOutcome.success ∧
    (transformMessages 1 [{ code := ResultCode.ok, errNonNil := true }] 5).transportClosed =
        false ∧
    (transformMessages 1 [{ code := ResultCode.ok, errNonNil := true }] 5).dropFrom = none := by
  decide

/-- Witness for C7 at a concrete unknown result code with non-nil error. -/
theorem c7_error_branch_witness :
    scribeLogLoop 3 [{ code := ResultCode.other 2, errNonNil := true }] 1 5 0 [] [] =
      { idxStart := 1, windowSize := 5, gaugeUpdates := [], sleepsMs := [],
        transportClosed := true, dropFrom := some 1, outcome := TMOutcome.errorDrop } :=
  c7_error_branch 3 1 5 0 [] [] [] { code := ResultCode.other 2, errNonNil := true }
    (by decide) (by decide) rfl

theorem sendBatch_trigger_iff (s : ScribeSettings) (now lastAppend activeCount : Nat) :
    sendBatchOnTimeOutFlushes s now lastAppend activeCount = true ↔
      (s.batchFlushCount ≤ activeCount ∨
        (s.batchTimeoutSec ≤ now - lastAppend ∧ 0 < activeCount)) := by
  simp only [sendBatchOnTimeOutFlushes, reachedSizeThreshold, reachedTimeThreshold,
    Bool.or_eq_true, decide_eq_true_eq]
  tauto

/-- C4: after Scribe.Configure, batchFlushCount is clamped to at most
batchMaxCount (default batchMaxCount / 2), and the batch is flushed exactly
when the active count reached batchFlushCount, or the time since the last
append reached the batch timeout with a non-empty batch (both on the ticker
path, sendBatchOnTimeOut), or at shutdown: Scribe.close unconditionally
hands the batch to batch.Close, which passes every resident message to the
flush function or the drop path, and with enough budget flushes them all. -/
theorem c4_flush_triggers (c : ScribeConfig) (now lastAppend activeCount : Nat) :
    (scribeConfigure c).batchFlushCount ≤ (scribeConfigure c).batchMaxCount ∧
    (c.batchFlushCount = none →
      (scribeConfigure c).batchFlushCount = (scribeConfigure c).batchMaxCount / 2) ∧
    (∀ v, c.batchFlushCount = some v →
      (scribeConfigure c).batchFlushCount = min v (scribeConfigure c).batchMaxCount) ∧
    (sendBatchOnTimeOutFlushes (scribeConfigure c) now lastAppend activeCount = true ↔
      ((scribeConfigure c).batchFlushCount ≤ activeCount ∨
        ((scribeConfigure c).batchTimeoutSec ≤ now - lastAppend ∧ 0 < activeCount))) ∧
    (∀ ev : ScribeEvent, scribeFlushOn (scribeConfigure c) ev = true ↔
      ((∃ n l a, ev = ScribeEvent.ticker n l a ∧
          ((scribeConfigure c).batchFlushCount ≤ a ∨
            ((scribeConfigure c).batchTimeoutSec ≤ n - l ∧ 0 < a))) ∨
        ev = ScribeEvent.shutdown)) ∧
    (∀ (resident : List Nat) (budget : Nat),
      (scribeCloseFlush resident budget).1 ++ (scribeCloseFlush resident budget).2 =
        resident) ∧
    (∀ resident : List Nat,
      scribeCloseFlush resident resident.length = (resident, [])) := by
  refine ⟨?_, ?_, ?_, sendBatch_trigger_iff _ _ _ _, ?_, ?_, ?_⟩
  · simp only [scribeConfigure]
    exact Nat.min_le_right _ _
  · intro h
    simp only [scribeConfigure, h, Option.getD_none, Option.getD_some]
    omega
  · intro v h
    simp only [scribeConfigure, h, Option.getD_some]
  · intro ev
    cases ev with
    | ticker n l a =>
      simp only [scribeFlushOn]
      rw [sendBatch_trigger_iff]
      constructor
      · intro h
        exact Or.inl ⟨n, l, a, rfl, h⟩
      · rintro (⟨n', l', a', heq, h⟩ | h)
        · simp only [ScribeEvent.ticker.injEq] at heq
          obtain ⟨rfl, rfl, rfl⟩ := heq
          exact h
        · simp at h
    | shutdown =>
      simp [scribeFlushOn]
  · intro resident budget
    simp [scribeCloseFlush, messageBatchClose]
  · intro resident
    simp [scribeCloseFlush, messageBatchClose]

/-- A Scribe config with a flush count above the max count. -/
def scribeConfigClamped : ScribeConfig :=
  { batchMaxCount := some 10, batchFlushCount := some 99, batchTimeoutSec := none }

/-- A Scribe config whose flush count 3 is below the max count. -/
def scribeConfigSmall : ScribeConfig :=
  { batchMaxCount := some 10, batchFlushCount := some 3, batchTimeoutSec := none }

/-- Witness for C4: a configured flush count of 99 with max count 10 is
clamped to min 99 10 = 10; a batch of 3 messages flushes by size when the
flush count is at most 3; the shutdown event always flushes; and Close
partitions a concrete resident batch into flushed and dropped parts. -/
theorem c4_flush_triggers_witness :
    (scribeConfigure scribeConfigClamped).batchFlushCount = min 99 10 ∧
    (sendBatchOnTimeOutFlushes (scribeConfigure scribeConfigSmall) 1 0 3 = true ↔
      ((scribeConfigure scribeConfigSmall).batchFlushCount ≤ 3 ∨
        ((scribeConfigure scribeConfigSmall).batchTimeoutSec ≤ 1 - 0 ∧ 0 < 3))) ∧
    scribeFlushOn (scribeConfigure scribeConfigSmall) ScribeEvent.shutdown = true ∧
    (scribeCloseFlush [5, 6, 7] 2).1 ++ (scribeCloseFlush [5, 6, 7] 2).2 = [5, 6, 7] ∧
    scribeCloseFlush [5, 6, 7] 3 = ([5, 6, 7], []) := by
  refine ⟨?_, ?_, ?_, ?_, ?_⟩
  · exact (c4_flush_triggers scribeConfigClamped 0 0 0).2.2.1 99 rfl
  · exact (c4_flush_triggers scribeConfigSmall 1 0 3).2.2.2.1
  · exact ((c4_flush_triggers scribeConfigSmall 1 0 3).2.2.2.2.1 ScribeEvent.shutdown).mpr
      (Or.inr rfl)
  · exact (c4_flush_triggers scribeConfigSmall 1 0 3).2.2.2.2.2.1 [5, 6, 7] 2
  · exact (c4_flush_triggers scribeConfigSmall 1 0 3).2.2.2.2.2.2 [5, 6, 7]

theorem spoolAppend_events (env : SpoolEnv) (st : SpoolingState) (msg : SpoolMsg) :
    (spoolAppend env st msg).2 =
      if env.openOrRotateOk msg.prevStreamID then [SpoolEvent.append msg.prevStreamID]
      else [SpoolEvent.route msg.prevStreamID] := by
  cases hr : env.openOrRotateOk msg.prevStreamID
  · cases hl : lookupSpool st.outfile msg.prevStreamID <;>
      simp [spoolAppend, routeToOrigin, hr, hl]
  · cases hl : lookupSpool st.outfile msg.prevStreamID <;>
      simp [spoolAppend, hr, hl]

/-- C2: Spooling.writeToFile selects the spool by the message's
PrevStreamID; when the per-stream directory (created with mode 0700 at
path/streamName) cannot be created the message is dropped via the
producer's drop path, and when openOrRotate fails the message is routed
back to its PrevStreamID instead of being appended to a spool. -/
theorem c2_writeToFile_paths (env : SpoolEnv) (st : SpoolingState) (msg : SpoolMsg) :
    (lookupSpool st.outfile msg.prevStreamID = none →
      env.mkdirOk (spoolBasePath st.path (env.streamName msg.prevStreamID)) = false →
      (writeToFile env st msg).2 =
        [SpoolEvent.mkdirAttempt (spoolBasePath st.path (env.streamName msg.prevStreamID))
            mkdirMode,
         SpoolEvent.logError (spoolBasePath st.path (env.streamName msg.prevStreamID)),
         SpoolEvent.drop]) ∧
    (env.openOrRotateOk msg.prevStreamID = false →
      (lookupSpool st.outfile msg.prevStreamID ≠ none ∨
        env.mkdirOk (spoolBasePath st.path (env.streamName msg.prevStreamID)) = true) →
      SpoolEvent.route msg.prevStreamID ∈ (writeToFile env st msg).2 ∧
        ∀ sid, SpoolEvent.append sid ∉ (writeToFile env st msg).2) ∧
    (∀ sid, SpoolEvent.append sid ∈ (writeToFile env st msg).2 → sid = msg.prevStreamID) := by
  have hb : (newSpoolFile env st.path msg.prevStreamID).basePath =
      spoolBasePath st.path (env.streamName msg.prevStreamID) := rfl
  refine ⟨?_, ?_, ?_⟩
  · intro hl hmk
    simp [writeToFile, hl, hb, hmk]
  · intro hrot hreg
    rcases hl : lookupSpool st.outfile msg.prevStreamID with _ | sp
    · rcases hreg with hne | hmk
      · exact absurd hl hne
      · simp [writeToFile, hl, hb, hmk, spoolAppend_events, hrot]
    · simp [writeToFile, hl, spoolAppend_events, hrot]
  · intro sid hmem
    rcases hl : lookupSpool st.outfile msg.prevStreamID with _ | sp
    · by_cases hmk : env.mkdirOk (spoolBasePath st.path (env.streamName msg.prevStreamID)) = true
      · cases hrot : env.openOrRotateOk msg.prevStreamID <;>
          simp_all [writeToFile, hl, hb, hmk, spoolAppend_events, hrot]
      · rw [Bool.not_eq_true] at hmk
        simp_all [writeToFile, hl, hb, hmk]
    · cases hrot : env.openOrRotateOk msg.prevStreamID <;>
        simp_all [writeToFile, hl, spoolAppend_events, hrot]

/-- Environment oracle for the C2 witness: directory creation fails. -/
def spoolEnvDrop : SpoolEnv :=
  { streamName := fun _ => "s", mkdirOk := fun _ => false,
    openOrRotateOk := fun _ => false }

/-- Environment oracle for the C2 witness: mkdir succeeds, openOrRotate
fails. -/
def spoolEnvRoute : SpoolEnv :=
  { streamName := fun _ => "s", mkdirOk := fun _ => true,
    openOrRotateOk := fun _ => false }

/-- Witness for C2: with a failing mkdir the first message for stream 7 is
dropped after the 0700 mkdir attempt; with a failing openOrRotate the
message is routed back to stream 7. -/
theorem c2_writeToFile_paths_witness :
    (writeToFile spoolEnvDrop { path := "/sp", outfile := [] } { prevStreamID := 7 }).2 =
      [SpoolEvent.mkdirAttempt "/sp/s" mkdirMode, SpoolEvent.logError "/sp/s",
       SpoolEvent.drop] ∧
    SpoolEvent.route 7 ∈
      (writeToFile spoolEnvRoute { path := "/sp", outfile := [] } { prevStreamID := 7 }).2 := by
  refine ⟨?_, ?_⟩
  · exact (c2_writeToFile_paths spoolEnvDrop { path := "/sp", outfile := [] }
      { prevStreamID := 7 }).1 rfl rfl
  · exact ((c2_writeToFile_paths spoolEnvRoute { path := "/sp", outfile := [] }
      { prevStreamID := 7 }).2.1 rfl (Or.inr rfl)).1

/-- C10: when the mkdir in Spooling.writeToFile fails, the freshly created
spoolFile stays registered in the outfile map (the state is not rolled
back), so a later message for the same PrevStreamID skips the mkdir check
entirely and goes straight to openOrRotate and the append (or, if
openOrRotate fails, to routeToOrigin). -/
theorem c10_mkdir_failure_keeps_spool (env : SpoolEnv) (st : SpoolingState)
    (msg msg2 : SpoolMsg)
    (h1 : lookupSpool st.outfile msg.prevStreamID = none)
    (h2 : env.mkdirOk (spoolBasePath st.path (env.streamName msg.prevStreamID)) = false)
    (h3 : msg2.prevStreamID = msg.prevStreamID) :
    lookupSpool (writeToFile env st msg).1.outfile msg.prevStreamID =
        some (newSpoolFile env st.path msg.prevStreamID) ∧
    (∀ p m, SpoolEvent.mkdirAttempt p m ∉
        (writeToFile env (writeToFile env st msg).1 msg2).2) ∧
    (env.openOrRotateOk msg.prevStreamID = true →
      (writeToFile env (writeToFile env st msg).1 msg2).2 =
        [SpoolEvent.append msg.prevStreamID]) ∧
    (env.openOrRotateOk msg.prevStreamID = false →
      (writeToFile env (writeToFile env st msg).1 msg2).2 =
        [SpoolEvent.route msg.prevStreamID]) := by
  have hb : (newSpoolFile env st.path msg.prevStreamID).basePath =
      spoolBasePath st.path (env.streamName msg.prevStreamID) := rfl
  have hstate : (writeToFile env st msg).1 =
      { st with outfile :=
          (msg.prevStreamID, newSpoolFile env st.path msg.prevStreamID) :: st.outfile } := by
    simp [writeToFile, h1, hb, h2]
  have hlook : lookupSpool (writeToFile env st msg).1.outfile msg.prevStreamID =
      some (newSpoolFile env st.path msg.prevStreamID) := by
    rw [hstate]
    simp [lookupSpool, List.find?]
  have hlook2 : lookupSpool (writeToFile env st msg).1.outfile msg2.prevStreamID =
      some (newSpoolFile env st.path msg.prevStreamID) := by
    rw [h3]
    exact hlook
  have hw2ge : ∀ (st' : SpoolingState) (sp : SpoolFileSt),
      lookupSpool st'.outfile msg2.prevStreamID = some sp →
      writeToFile env st' msg2 = spoolAppend env st' msg2 := by
    intro st' sp hsp
    unfold writeToFile
    rw [hsp]
  have hw2 : (writeToFile env (writeToFile env st msg).1 msg2).2 =
      (spoolAppend env (writeToFile env st msg).1 msg2).2 :=
    congrArg Prod.snd (hw2ge (writeToFile env st msg).1 _ hlook2)
  refine ⟨hlook, ?_, ?_, ?_⟩
  · intro p m
    rw [hw2, spoolAppend_events, h3]
    cases hr : env.openOrRotateOk msg.prevStreamID <;> simp
  · intro hr
    rw [hw2, spoolAppend_events, h3, hr]
    simp
  · intro hr
    rw [hw2, spoolAppend_events, h3, hr]
    simp

/-- Environment oracle for the C10 witness: mkdir fails, openOrRotate
succeeds. -/
def spoolEnvKeep : SpoolEnv :=
  { streamName := fun _ => "s", mkdirOk := fun _ => false,
    openOrRotateOk := fun _ => true }

/-- Witness for C10: after a failed mkdir for stream 3, the spool is still
registered and the next message for stream 3 performs no mkdir attempt and
is appended. -/
theorem c10_mkdir_failure_keeps_spool_witness :
    lookupSpool (writeToFile spoolEnvKeep { path := "/x", outfile := [] }
        { prevStreamID := 3 }).1.outfile 3 =
      some (newSpoolFile spoolEnvKeep "/x" 3) ∧
    SpoolEvent.mkdirAttempt "/x/s" mkdirMode ∉
      (writeToFile spoolEnvKeep (writeToFile spoolEnvKeep { path := "/x", outfile := [] }
          { prevStreamID := 3 }).1 { prevStreamID := 3 }).2 ∧
    (writeToFile spoolEnvKeep (writeToFile spoolEnvKeep { path := "/x", outfile := [] }
        { prevStreamID := 3 }).1 { prevStreamID := 3 }).2 = [SpoolEvent.append 3] := by
  have h := c10_mkdir_failure_keeps_spool spoolEnvKeep { path := "/x", outfile := [] }
    { prevStreamID := 3 } { prevStreamID := 3 } rfl rfl rfl
  exact ⟨h.1, h.2.1 "/x/s" mkdirMode, h.2.2.1 rfl⟩

/-- C5 (amended): for every plugin p and non-empty id, after
Register(p, id) a GetPlugin(id) returns p; a subsequent
RegisterUnique(q, id) with the same id returns an error and leaves the
registry unchanged, so GetPlugin(id) is still p; GetPlugin of an id held by
no entry returns nil. Register with an empty id is a no-op. -/
theorem c5_plugin_registry {α : Type} (r : PluginRegistry α) (p q : α) (id : String)
    (h : id ≠ "") :
    ((r.register p id).getPlugin id = some p) ∧
    ((r.register p id).registerUnique q id).2 = true ∧
    ((r.register p id).registerUnique q id).1 = r.register p id ∧
    ((r.register p id).registerUnique q id).1.getPlugin id = some p ∧
    (∀ s : PluginRegistry α, (∀ e ∈ s.plugins, e.1 ≠ id) → s.getPlugin id = none) := by
  have hget : (r.register p id).getPlugin id = some p := by
    unfold PluginRegistry.register PluginRegistry.getPlugin
    rw [if_neg h]
    simp [List.find?]
  have huniq : (r.register p id).registerUnique q id = (r.register p id, true) := by
    unfold PluginRegistry.registerUnique
    rw [hget]
  refine ⟨hget, by rw [huniq], by rw [huniq], by rw [huniq]; exact hget, ?_⟩
  intro s hs
  unfold PluginRegistry.getPlugin
  rw [List.find?_eq_none.mpr ?_]
  intro x hx
  have hxm := hs x (List.mem_reverse.mp hx)
  simp [hxm]

/-- Counterexample to C5 as stated: registering under the empty id is a
no-op (the spec's empty-ID convention), so GetPlugin of the empty id does
not return the plugin. -/
theorem c5_plugin_registry_counterexample :
    (PluginRegistry.register { plugins := ([] : List (String × Nat)) } 0 ("")).getPlugin ("") ≠
      some 0 := by
  decide

/-- Witness for C5 at a fresh registry over Nat plugins and id a. -/
theorem c5_plugin_registry_witness :
    ((PluginRegistry.mk ([] : List (String × Nat))).register 1 ("a")).getPlugin ("a") =
        some 1 ∧
    (((PluginRegistry.mk ([] : List (String × Nat))).register 1 ("a")).registerUnique 2
        ("a")).2 = true ∧
    (((PluginRegistry.mk ([] : List (String × Nat))).register 1 ("a")).registerUnique 2
        ("a")).1.getPlugin ("a") = some 1 := by
  have h := c5_plugin_registry (PluginRegistry.mk ([] : List (String × Nat))) 1 2 ("a")
    (by decide)
  exact ⟨h.1, h.2.1, h.2.2.2.1⟩

/-- C6: Spooling.Configure overrides the Formatter option to
format.Serialize before delegating to the base producer configuration, so
the spooling producer's formatter is the binary serializer regardless of
any user-supplied value. -/
theorem c6_formatter_override (conf : PluginConfig) (d : String) :
    spoolingFormatter conf = "format.Serialize" ∧
    (spoolingConfigureConf conf).getString ("Formatter") d = "format.Serialize" := by
  have key : ∀ d' : String,
      (spoolingConfigureConf conf).getString ("Formatter") d' = "format.Serialize" := by
    intro d'
    simp [spoolingConfigureConf, PluginConfig.override, PluginConfig.getString, List.find?]
  exact ⟨key ("format.Forward"), key d⟩

/-- C8: for a message with Sequence 42 whose base formatter yields hi, the
sequence formatter's CopyTo writes exactly the bytes 42:hi and returns 5,
matching GetLength and String. -/
theorem c8_sequence_42 :
    seqCopyTo 42 ("hi") = "42:hi" ∧
    seqCopyToReturn 42 (String.length ("hi")) = 5 ∧
    seqGetLength 42 (String.length ("hi")) = 5 ∧
    seqString 42 ("hi") = "42:hi" := by
  refine ⟨?_, ?_, ?_, ?_⟩ <;> decide
